import Mathlib

/-!
Shallow embedding of the update ingestion and dispatch pipeline of
`botml31.py` (the most evolved bot variant in the repository), together
with proofs of the behavioural claims about it.

Modelling conventions:
* The SQLite tables (`chat_history`, `processed_updates`, `chat_timestamps`),
  the module-level globals (`BLOCKED_CHATS`, `LEARNED_CONTEXT`,
  `message_queue`) and the wall clock are gathered into one `BotState`
  record; every Python function that touches them becomes a state
  transformer.
* `time.time()` is modelled as reading the `clock` field (whole seconds,
  as `Int`); `asyncio.sleep d` advances the clock by `d`.
* The network is abstracted by oracles: the Telegram `sendMessage` POST in
  `flush_message_queue` is a function from the index of the POST attempt
  within the flush pass to an outcome, and the Gemini call inside the
  handlers is a function from the prompt to an `Except` result (the
  internals of `generate_response_with_retry` are modelled separately,
  with a per-attempt outcome oracle).
* `sendChatAction` only performs network I/O and touches no shared state,
  so it is a no-op on `BotState`.
-/

/-- One row of the `chat_history` table (the autoincrement `id` column is
the position in the list). -/
structure HistoryRow where
  chat_id : String
  role : String
  content : String
  timestamp : Int
deriving DecidableEq, Repr

/-- A pending outbound message as built by `send_message`: the JSON payload
for the Telegram `sendMessage` call. -/
structure Payload where
  chat_id : String
  text : String
  business_connection_id : Option String
deriving DecidableEq, Repr

/-- The shared state of the pipeline: the three SQLite tables, the
module-level globals, the configuration, and the wall clock. -/
structure BotState where
  owner : String
  context : String
  clock : Int
  chat_history : List HistoryRow
  processed_updates : List Int
  chat_timestamps : List (String × Int)
  blocked_chats : List String
  learned_context : String
  message_queue : List Payload
deriving DecidableEq, Repr

/-- `REPLY_DELAY = 2` -/
def REPLY_DELAY : Int := 2

/-- `MIN_MESSAGE_INTERVAL = 10` -/
def MIN_MESSAGE_INTERVAL : Int := 10

/-- `MAX_QUEUE_SIZE = 10` -/
def MAX_QUEUE_SIZE : Nat := 10

/-- `save_message_to_db`: INSERT one row into `chat_history` with
`timestamp = time.time()`. -/
def save_message_to_db (s : BotState) (chat_id role content : String) : BotState :=
  { s with chat_history :=
      s.chat_history ++ [⟨chat_id, role, content, s.clock⟩] }

/-- `chat_id` selection of the `chat_history` table
(`WHERE chat_id = ?`). -/
def chatRows (s : BotState) (chat_id : String) : List HistoryRow :=
  s.chat_history.filter (fun r => r.chat_id == chat_id)

/-- The comparison behind `ORDER BY timestamp DESC`: `a` comes no later
than `b` in the output when `a` is at least as recent. -/
def tsDescLE (a b : HistoryRow) : Prop := b.timestamp ≤ a.timestamp

instance : DecidableRel tsDescLE :=
  fun a b => inferInstanceAs (Decidable (b.timestamp ≤ a.timestamp))

instance : IsTotal HistoryRow tsDescLE := ⟨fun a b => le_total b.timestamp a.timestamp⟩

instance : IsTrans HistoryRow tsDescLE := ⟨fun _ _ _ h1 h2 => le_trans h2 h1⟩

/-- The rows for `chat_id` in `ORDER BY timestamp DESC` order. -/
def sortedRowsDesc (s : BotState) (chat_id : String) : List HistoryRow :=
  List.insertionSort tsDescLE (chatRows s chat_id)

/-- `SELECT role, content FROM chat_history WHERE chat_id = ? ORDER BY
timestamp DESC LIMIT ?`, keeping the whole rows so properties about
timestamps can be stated. -/
def selectRecentRows (s : BotState) (chat_id : String) (limit : Nat) : List HistoryRow :=
  (sortedRowsDesc s chat_id).take limit

/-- `load_chat_history`: the DESC-ordered window is reversed
(`history[::-1]`) and projected to `(role, content)` dictionaries. -/
def load_chat_history (s : BotState) (chat_id : String) (limit : Nat := 5) :
    List (String × String) :=
  ((selectRecentRows s chat_id limit).reverse).map (fun r => (r.role, r.content))

/-- `is_update_processed`: membership test on the `processed_updates`
table. -/
def is_update_processed (s : BotState) (update_id : Int) : Bool :=
  s.processed_updates.contains update_id

/-- `mark_update_processed`: `INSERT OR IGNORE` of the id. -/
def mark_update_processed (s : BotState) (update_id : Int) : BotState :=
  if s.processed_updates.contains update_id then s
  else { s with processed_updates := s.processed_updates ++ [update_id] }

/-- `get_last_message_time`: lookup in `chat_timestamps`, defaulting
to `0`. -/
def get_last_message_time (s : BotState) (chat_id : String) : Int :=
  match s.chat_timestamps.find? (fun p => p.1 == chat_id) with
  | some p => p.2
  | none => 0

/-- `update_last_message_time`: `INSERT OR REPLACE` (upsert) of the
chat's row. -/
def update_last_message_time (s : BotState) (chat_id : String) (t : Int) : BotState :=
  { s with chat_timestamps :=
      (chat_id, t) :: s.chat_timestamps.filter (fun p => p.1 != chat_id) }

/-- `BLOCKED_CHATS.add`: set insertion on the blocked-chat list. -/
def addBlocked (l : List String) (chat_id : String) : List String :=
  if l.contains chat_id then l else l ++ [chat_id]

/-- `list.remove`: drop the first occurrence of a value (in
`flush_message_queue` the value is always present). -/
def removeFirst [DecidableEq α] : List α → α → List α
  | [], _ => []
  | x :: xs, a => if x = a then xs else x :: removeFirst xs a

/-- In the Python payload dict the `business_connection_id` key is set only
when the argument is truthy, so `None` and `""` both leave it out. -/
def payloadBci : Option String → Option String
  | none => none
  | some b => if b = "" then none else some b

/-- `send_message`: rejects when the chat is blocked, when the chat's last
recorded send is less than `MIN_MESSAGE_INTERVAL` ago, or when the queue
already holds `MAX_QUEUE_SIZE` entries; otherwise appends the payload and
returns `str(current_time)`. -/
def send_message (s : BotState) (chat_id text : String)
    (business_connection_id : Option String := none) : Option String × BotState :=
  if s.blocked_chats.contains chat_id then (none, s)
  else
    let current_time := s.clock
    let last_message_time := get_last_message_time s chat_id
    if current_time - last_message_time < MIN_MESSAGE_INTERVAL then (none, s)
    else if MAX_QUEUE_SIZE ≤ s.message_queue.length then (none, s)
    else (some (toString current_time),
      { s with message_queue :=
          s.message_queue ++ [⟨chat_id, text, payloadBci business_connection_id⟩] })

/-- `notify_owner`: `send_message(OWNER_CHAT_ID, message)`. The second
component records the payloads this call appended to the queue (one when
the send was accepted, none otherwise). -/
def notify_owner (s : BotState) (text : String) : BotState × List Payload :=
  let r := send_message s s.owner text none
  (r.2, if r.1.isSome then [⟨s.owner, text, none⟩] else [])

/-- Outcome of one `requests.post(...sendMessage)` attempt inside
`flush_message_queue`: success, an HTTPError with status 400, an HTTPError
with some other status, or a non-HTTP exception; the failures carry the
exception's string. -/
inductive SendOutcome where
  | success
  | http400 (e : String)
  | httpOther (e : String)
  | netError (e : String)
deriving DecidableEq, Repr

/-- The loop body of `flush_message_queue`, iterating over the snapshot
`message_queue[:]` taken when the flush started.  `sent` is the
`sent_messages` key set, `n` counts the POST attempts made so far in this
pass (it indexes the transport oracle).  Besides the final state it
returns the `(chat_id, text)` pairs successfully sent and the payloads the
error-path `notify_owner` calls appended to the queue during the pass. -/
def flushGo (tr : Nat → SendOutcome) :
    List Payload → BotState → List String → Nat →
    BotState × List (String × String) × List Payload
  | [], s, _, _ => (s, [], [])
  | msg :: rest, s, sent, n =>
    let key := msg.chat_id ++ ":" ++ msg.text
    if sent.contains key then
      let s1 := { s with message_queue := removeFirst s.message_queue msg }
      flushGo tr rest s1 sent n
    else
      let s1 := { s with clock := s.clock + REPLY_DELAY }
      match tr n with
      | .success =>
        let s2 := update_last_message_time s1 msg.chat_id s1.clock
        let s3 := { s2 with message_queue := removeFirst s2.message_queue msg }
        let r := flushGo tr rest s3 (sent ++ [key]) (n + 1)
        (r.1, (msg.chat_id, msg.text) :: r.2.1, r.2.2)
      | .http400 e =>
        let s2 := { s1 with blocked_chats := addBlocked s1.blocked_chats msg.chat_id }
        let nr := notify_owner s2 ("Chat " ++ msg.chat_id ++ " blocked or restricted: " ++ e)
        let s3 := { nr.1 with message_queue := removeFirst nr.1.message_queue msg }
        let r := flushGo tr rest s3 sent (n + 1)
        (r.1, r.2.1, nr.2 ++ r.2.2)
      | .httpOther e =>
        let nr := notify_owner s1 ("Failed to send message to chat " ++ msg.chat_id ++ ": " ++ e)
        let s3 := { nr.1 with message_queue := removeFirst nr.1.message_queue msg }
        let r := flushGo tr rest s3 sent (n + 1)
        (r.1, r.2.1, nr.2 ++ r.2.2)
      | .netError e =>
        let nr := notify_owner s1 ("Failed to send message to chat " ++ msg.chat_id ++ ": " ++ e)
        let s3 := { nr.1 with message_queue := removeFirst nr.1.message_queue msg }
        let r := flushGo tr rest s3 sent (n + 1)
        (r.1, r.2.1, nr.2 ++ r.2.2)

/-- One whole flush pass over the queue, with its instrumentation. -/
def flushFull (tr : Nat → SendOutcome) (s : BotState) :
    BotState × List (String × String) × List Payload :=
  flushGo tr s.message_queue s [] 0

/-- `flush_message_queue`: early return on an empty queue, otherwise the
pass over the snapshot. -/
def flush_message_queue (tr : Nat → SendOutcome) (s : BotState) : BotState :=
  if s.message_queue.isEmpty then s else (flushFull tr s).1

/-- A Telegram message object, as far as the handlers read it: `from.id`
and `chat.id` already passed through `str(...)`, the optional `text`
field, `date` (read with `.get("date", 0)`), `from.first_name`, and the
business connection id. -/
structure Msg where
  from_id : String
  chat_id : String
  text : Option String
  date : Int
  first_name : String
  business_connection_id : Option String
deriving DecidableEq, Repr

/-- An inbound Telegram update: the optional `update_id` and the optional
`business_message` / `message` members. -/
structure Update where
  update_id : Option Int
  business_message : Option Msg
  message : Option Msg
deriving DecidableEq, Repr

/-- The fixed fallback notice for non-text messages. -/
def FALLBACK_TEXT : String :=
  "Sorry, I can only process text messages. Please wait for THEFLASH47 to assist you."

/-- The fixed apology sent when generation fails. -/
def APOLOGY_TEXT : String :=
  "Oops, something went wrong! Please wait for THEFLASH47 to assist you."

/-- The prompt built by both handlers: static context, learned context,
formatted recent history and the user question. -/
def buildPrompt (s : BotState) (chat_id user_message : String) : String :=
  let history := load_chat_history s chat_id
  let history_text :=
    String.intercalate "\n" (history.map (fun p => p.1.toUpper ++ ": " ++ p.2))
  s.context ++ "\n" ++ s.learned_context ++ "\n\nChat History:\n" ++ history_text
    ++ "\n\nUser question: " ++ user_message

/-- `handle_business_message`, with the generation call abstracted as
`gen : prompt → Except errorString responseText`. -/
def handle_business_message (gen : String → Except String String)
    (u : Update) (s : BotState) : BotState :=
  match u.business_message with
  | none => s
  | some m =>
    match m.text with
    | none => s
    | some text =>
      if m.from_id = s.owner then
        let s1 := save_message_to_db s m.chat_id "user" text
        { s1 with learned_context := s1.learned_context ++ "\n\nOwner: " ++ text }
      else
        let bci := m.business_connection_id
        let user_message := text.trim
        if user_message = "" then
          (send_message s m.chat_id FALLBACK_TEXT bci).2
        else
          let s1 := save_message_to_db s m.chat_id "user" user_message
          match gen (buildPrompt s1 m.chat_id user_message) with
          | .ok response =>
            let s2 := (send_message s1 m.chat_id response bci).2
            save_message_to_db s2 m.chat_id "bot" response
          | .error e =>
            let nr := notify_owner s1
              ("Error handling business message from chat " ++ m.chat_id ++ ": " ++ e)
            (send_message nr.1 m.chat_id FALLBACK_TEXT bci).2

/-- `handle_direct_message`, with the generation call abstracted as
`gen : prompt → Except errorString responseText`. -/
def handle_direct_message (gen : String → Except String String)
    (u : Update) (s : BotState) : BotState :=
  match u.message with
  | none => s
  | some m =>
    match m.text with
    | none => s
    | some text =>
      if m.from_id = s.owner then
        let s1 := save_message_to_db s m.chat_id "user" text
        { s1 with learned_context := s1.learned_context ++ "\n\nOwner: " ++ text }
      else
        let user_message := text.trim
        if m.date < s.clock - 60 then s
        else if user_message.startsWith "/start" then
          let welcome_text := "Hi " ++ m.first_name ++
            "! I’m your support bot, powered by Gemini. How can I help you today?"
          let s1 := (send_message s m.chat_id welcome_text none).2
          save_message_to_db s1 m.chat_id "bot" welcome_text
        else if user_message = "" then
          (send_message s m.chat_id FALLBACK_TEXT none).2
        else
          let s1 := save_message_to_db s m.chat_id "user" user_message
          match gen (buildPrompt s1 m.chat_id user_message) with
          | .ok response =>
            let s2 := (send_message s1 m.chat_id response none).2
            save_message_to_db s2 m.chat_id "bot" response
          | .error e =>
            let nr := notify_owner s1
              ("Error handling direct message from chat " ++ m.chat_id ++ ": " ++ e)
            (send_message nr.1 m.chat_id APOLOGY_TEXT none).2

/-- `process_update`: the router.  `if not update_id` treats both a missing
key and the falsy value `0` as absent; an already processed id returns
before any side effect; otherwise the id is marked processed, the update
is dispatched to the business handler, else the direct handler, and the
queue is flushed. -/
def process_update (gen : String → Except String String)
    (tr : Nat → SendOutcome) (u : Update) (s : BotState) : BotState :=
  match u.update_id with
  | none => s
  | some update_id =>
    if update_id = 0 then s
    else if is_update_processed s update_id then s
    else
      let s1 := mark_update_processed s update_id
      let s2 :=
        if u.business_message.isSome then handle_business_message gen u s1
        else if u.message.isSome then handle_direct_message gen u s1
        else s1
      flush_message_queue tr s2

/-- Outcome of one attempt of the Gemini call as seen by
`generate_response_with_retry`: the `asyncio.wait_for` boundary returns the
response text, raises `asyncio.TimeoutError`, or raises some other
exception (carried as its string). -/
inductive AttemptOutcome where
  | ok (text : String)
  | timeout
  | error (e : String)
deriving DecidableEq, Repr

/-- Whether an attempt outcome takes one of the two `except` branches. -/
def attemptFails : AttemptOutcome → Bool
  | .ok _ => false
  | .timeout => true
  | .error _ => true

/-- How `generate_response_with_retry` can finish: return the response
text, raise `Exception("Gemini API timed out after all retries")`, re-raise
the last attempt's exception, or fall off the loop (only when
`max_retries = 0`, where the Python function returns `None`). -/
inductive GenResult where
  | success (text : String)
  | timedOutAll
  | failed (e : String)
  | noAttempts
deriving DecidableEq, Repr

/-- The `for attempt in range(max_retries)` loop of
`generate_response_with_retry`, from iteration `attempt` on.  `oracle`
gives each attempt's outcome; the second component is the list of backoff
delays (`2 ** attempt`) slept between attempts. -/
def genLoop (oracle : Nat → AttemptOutcome) (max_retries : Nat) (attempt : Nat) :
    GenResult × List Nat :=
  if attempt < max_retries then
    match oracle attempt with
    | .ok text => (.success text, [])
    | .timeout =>
      if attempt < max_retries - 1 then
        let r := genLoop oracle max_retries (attempt + 1)
        (r.1, 2 ^ attempt :: r.2)
      else (.timedOutAll, [])
    | .error e =>
      if attempt < max_retries - 1 then
        let r := genLoop oracle max_retries (attempt + 1)
        (r.1, 2 ^ attempt :: r.2)
      else (.failed e, [])
  else (.noAttempts, [])
termination_by max_retries - attempt

/-- `generate_response_with_retry`, abstracted over the per-attempt
outcome oracle. -/
def generate_response_with_retry (oracle : Nat → AttemptOutcome)
    (max_retries : Nat := 3) : GenResult × List Nat :=
  genLoop oracle max_retries 0

/-! ## Helper lemmas -/

theorem send_message_snd_cases (s : BotState) (c t : String) (bci : Option String) :
    (send_message s c t bci).2 = s ∨
    (send_message s c t bci).2 =
      { s with message_queue := s.message_queue ++ [⟨c, t, payloadBci bci⟩] } := by
  simp only [send_message]
  split_ifs <;> simp

theorem send_message_reject_of_blocked (s : BotState) (c t : String) (bci : Option String)
    (h : s.blocked_chats.contains c = true) : send_message s c t bci = (none, s) := by
  have h' : c ∈ s.blocked_chats := by simpa using h
  simp only [send_message]
  simp [h']

theorem send_message_reject_of_rate (s : BotState) (c t : String) (bci : Option String)
    (h : s.clock - get_last_message_time s c < MIN_MESSAGE_INTERVAL) :
    send_message s c t bci = (none, s) := by
  simp only [send_message]
  split_ifs <;> rfl

theorem send_message_fields (s : BotState) (c t : String) (bci : Option String) :
    (send_message s c t bci).2.owner = s.owner ∧
    (send_message s c t bci).2.context = s.context ∧
    (send_message s c t bci).2.clock = s.clock ∧
    (send_message s c t bci).2.chat_history = s.chat_history ∧
    (send_message s c t bci).2.processed_updates = s.processed_updates ∧
    (send_message s c t bci).2.chat_timestamps = s.chat_timestamps ∧
    (send_message s c t bci).2.blocked_chats = s.blocked_chats ∧
    (send_message s c t bci).2.learned_context = s.learned_context := by
  rcases send_message_snd_cases s c t bci with h | h <;> rw [h] <;> simp

theorem notify_owner_fields (s : BotState) (t : String) :
    (notify_owner s t).1.owner = s.owner ∧
    (notify_owner s t).1.context = s.context ∧
    (notify_owner s t).1.clock = s.clock ∧
    (notify_owner s t).1.chat_history = s.chat_history ∧
    (notify_owner s t).1.processed_updates = s.processed_updates ∧
    (notify_owner s t).1.chat_timestamps = s.chat_timestamps ∧
    (notify_owner s t).1.blocked_chats = s.blocked_chats ∧
    (notify_owner s t).1.learned_context = s.learned_context := by
  unfold notify_owner
  exact send_message_fields s s.owner t none

theorem notify_owner_queue (s : BotState) (t : String) :
    (notify_owner s t).1.message_queue = s.message_queue ++ (notify_owner s t).2 := by
  unfold notify_owner
  simp only [send_message]
  split_ifs <;> simp_all [payloadBci]

theorem removeFirst_cons_self [DecidableEq α] (a : α) (l : List α) :
    removeFirst (a :: l) a = l := by
  unfold removeFirst
  simp

/-! ## C1 -/

/-- C1: re-running the router on an update whose id is already in the
processed set is a complete no-op: the state (history, learned context,
queue, processed set, everything) is returned unchanged. -/
theorem c1_processed_update_noop (gen : String → Except String String)
    (tr : Nat → SendOutcome) (u : Update) (s : BotState) (id : Int)
    (hid : u.update_id = some id) (hproc : is_update_processed s id = true) :
    process_update gen tr u s = s := by
  unfold process_update
  rw [hid]
  by_cases h0 : id = 0
  · simp [h0]
  · simp [h0, hproc]

/-- Witness for C1: a concrete state with update 5 already processed is
returned exactly as it was. -/
theorem c1_processed_update_noop_witness :
    is_update_processed ⟨"1", "ctx", 100, [], [5], [], [], "", []⟩ 5 = true ∧
    process_update (fun _ => .ok "r") (fun _ => .success)
        ⟨some 5, none, some ⟨"9", "9", some "hi", 100, "N", none⟩⟩
        ⟨"1", "ctx", 100, [], [5], [], [], "", []⟩ =
      ⟨"1", "ctx", 100, [], [5], [], [], "", []⟩ :=
  ⟨by decide,
   c1_processed_update_noop (fun _ => .ok "r") (fun _ => .success)
     ⟨some 5, none, some ⟨"9", "9", some "hi", 100, "N", none⟩⟩
     ⟨"1", "ctx", 100, [], [5], [], [], "", []⟩ 5 rfl (by decide)⟩

/-! ## C10 -/

/-- C10: an update with a missing or falsy (`0`) `update_id` is returned
to immediately: nothing is recorded, no handler runs, nothing is enqueued
and no flush is triggered, i.e. the state is unchanged. -/
theorem c10_falsy_update_id_noop (gen : String → Except String String)
    (tr : Nat → SendOutcome) (u : Update) (s : BotState)
    (h : u.update_id = none ∨ u.update_id = some 0) :
    process_update gen tr u s = s := by
  unfold process_update
  rcases h with h | h <;> rw [h]
  simp

/-- Witness for C10: a concrete update carrying `update_id = 0` leaves a
concrete state untouched. -/
theorem c10_falsy_update_id_noop_witness :
    process_update (fun _ => .ok "r") (fun _ => .success)
        ⟨some 0, none, some ⟨"9", "9", some "hi", 100, "N", none⟩⟩
        ⟨"1", "ctx", 100, [], [], [], [], "", []⟩ =
      ⟨"1", "ctx", 100, [], [], [], [], "", []⟩ :=
  c10_falsy_update_id_noop (fun _ => .ok "r") (fun _ => .success)
    ⟨some 0, none, some ⟨"9", "9", some "hi", 100, "N", none⟩⟩
    ⟨"1", "ctx", 100, [], [], [], [], "", []⟩ (Or.inr rfl)

theorem send_message_reject_of_full (s : BotState) (c t : String) (bci : Option String)
    (h : MAX_QUEUE_SIZE ≤ s.message_queue.length) :
    send_message s c t bci = (none, s) := by
  simp only [send_message]
  split_ifs <;> rfl

theorem send_message_accept (s : BotState) (c t : String) (bci : Option String)
    (hb : ¬ s.blocked_chats.contains c = true)
    (hr : ¬ s.clock - get_last_message_time s c < MIN_MESSAGE_INTERVAL)
    (hf : ¬ MAX_QUEUE_SIZE ≤ s.message_queue.length) :
    send_message s c t bci =
      (some (toString s.clock),
       { s with message_queue := s.message_queue ++ [⟨c, t, payloadBci bci⟩] }) := by
  simp only [send_message]
  split_ifs
  rfl

/-! ## C2 -/

/-- Counterexample for C2 as stated: from a fresh state, two enqueues for
chat "7" five seconds apart (no flush, hence no recorded successful send,
in between) are BOTH accepted — the queue ends with two entries, even
though 5 < MIN_MESSAGE_INTERVAL. -/
theorem c2_counterexample :
    (105 : Int) - (100 : Int) < MIN_MESSAGE_INTERVAL ∧
    (send_message ⟨"1", "ctx", 100, [], [], [], [], "", []⟩ "7" "a" none).1.isSome = true ∧
    (send_message { (send_message ⟨"1", "ctx", 100, [], [], [], [], "", []⟩ "7" "a" none).2
        with clock := 105 } "7" "b" none).1.isSome = true ∧
    (send_message { (send_message ⟨"1", "ctx", 100, [], [], [], [], "", []⟩ "7" "a" none).2
        with clock := 105 } "7" "b" none).2.message_queue.length = 2 := by
  decide

/-- C2 (amended): the per-chat rate limit is measured from the chat's
stored last-send time (updated only by a successful send during a flush),
not from the previous enqueue call: an enqueue whose call time is within
MIN_MESSAGE_INTERVAL of the stored last-send time is rejected and leaves
the state unchanged; two enqueues within the interval with no successful
send recorded in between may both be accepted. -/
theorem c2_rate_limit_from_recorded_send (s : BotState) (c text : String)
    (bci : Option String)
    (h : s.clock - get_last_message_time s c < MIN_MESSAGE_INTERVAL) :
    (send_message s c text bci).1 = none ∧ (send_message s c text bci).2 = s := by
  rw [send_message_reject_of_rate s c text bci h]
  exact ⟨rfl, rfl⟩

/-- Witness for the amended C2: a chat whose last recorded send was 5
seconds ago is rejected. -/
theorem c2_rate_limit_from_recorded_send_witness :
    (⟨"1", "ctx", 100, [], [], [("7", 95)], [], "", []⟩ : BotState).clock -
      get_last_message_time ⟨"1", "ctx", 100, [], [], [("7", 95)], [], "", []⟩ "7" <
      MIN_MESSAGE_INTERVAL ∧
    ((send_message ⟨"1", "ctx", 100, [], [], [("7", 95)], [], "", []⟩ "7" "x" none).1 = none ∧
     (send_message ⟨"1", "ctx", 100, [], [], [("7", 95)], [], "", []⟩ "7" "x" none).2 =
       ⟨"1", "ctx", 100, [], [], [("7", 95)], [], "", []⟩) :=
  ⟨by decide,
   c2_rate_limit_from_recorded_send ⟨"1", "ctx", 100, [], [], [("7", 95)], [], "", []⟩
     "7" "x" none (by decide)⟩

/-! ## C3 -/

/-- C3: `send_message` rejects (returns `None` and leaves the state, in
particular the queue, unchanged) iff the chat is blocked, or the call time
is within MIN_MESSAGE_INTERVAL of the chat's stored last-send time, or the
queue already holds at least MAX_QUEUE_SIZE entries; in every other case
it reports acceptance (`str(current_time)`) and appends exactly the one
payload to the queue. -/
theorem c3_enqueue_accept_reject (s : BotState) (c text : String) (bci : Option String) :
    (((send_message s c text bci).1 = none ∧ (send_message s c text bci).2 = s) ↔
      (s.blocked_chats.contains c = true ∨
       s.clock - get_last_message_time s c < MIN_MESSAGE_INTERVAL ∨
       MAX_QUEUE_SIZE ≤ s.message_queue.length)) ∧
    (¬(s.blocked_chats.contains c = true ∨
       s.clock - get_last_message_time s c < MIN_MESSAGE_INTERVAL ∨
       MAX_QUEUE_SIZE ≤ s.message_queue.length) →
      (send_message s c text bci).1 = some (toString s.clock) ∧
      (send_message s c text bci).2.message_queue
        = s.message_queue ++ [⟨c, text, payloadBci bci⟩]) := by
  constructor
  · constructor
    · intro h
      by_contra hc
      rcases not_or.mp hc with ⟨hb, hc2⟩
      rcases not_or.mp hc2 with ⟨hr, hf⟩
      rw [send_message_accept s c text bci hb hr hf] at h
      exact Option.noConfusion h.1
    · intro h
      rcases h with h | h | h
      · rw [send_message_reject_of_blocked s c text bci h]; exact ⟨rfl, rfl⟩
      · rw [send_message_reject_of_rate s c text bci h]; exact ⟨rfl, rfl⟩
      · rw [send_message_reject_of_full s c text bci h]; exact ⟨rfl, rfl⟩
  · intro hc
    rcases not_or.mp hc with ⟨hb, hc2⟩
    rcases not_or.mp hc2 with ⟨hr, hf⟩
    rw [send_message_accept s c text bci hb hr hf]
    exact ⟨rfl, rfl⟩

/-- Witness for C3: in a fresh state no reject condition holds, the call
is accepted and the payload is appended. -/
theorem c3_enqueue_accept_reject_witness :
    ¬((⟨"1", "ctx", 100, [], [], [], [], "", []⟩ : BotState).blocked_chats.contains "7" = true ∨
      (⟨"1", "ctx", 100, [], [], [], [], "", []⟩ : BotState).clock -
        get_last_message_time ⟨"1", "ctx", 100, [], [], [], [], "", []⟩ "7" <
        MIN_MESSAGE_INTERVAL ∨
      MAX_QUEUE_SIZE ≤ (⟨"1", "ctx", 100, [], [], [], [], "", []⟩ : BotState).message_queue.length) ∧
    ((send_message ⟨"1", "ctx", 100, [], [], [], [], "", []⟩ "7" "t" none).1 =
        some (toString (⟨"1", "ctx", 100, [], [], [], [], "", []⟩ : BotState).clock) ∧
     (send_message ⟨"1", "ctx", 100, [], [], [], [], "", []⟩ "7" "t" none).2.message_queue =
        (⟨"1", "ctx", 100, [], [], [], [], "", []⟩ : BotState).message_queue ++
          [⟨"7", "t", payloadBci none⟩]) :=
  ⟨by decide,
   (c3_enqueue_accept_reject ⟨"1", "ctx", 100, [], [], [], [], "", []⟩ "7" "t" none).2
     (by decide)⟩

/-! ## C5 -/

/-- C5: a direct or business message whose sender is the configured owner
appends the raw text to the learned context, appends one "user" turn to
the conversation history, enqueues nothing, and makes no generation call
(the handler's result does not depend on the generation oracle). -/
theorem c5_owner_message_learns (gen gen' : String → Except String String)
    (u : Update) (s : BotState) (m : Msg) (text : String) :
    (u.message = some m → m.text = some text → m.from_id = s.owner →
      ((handle_direct_message gen u s).learned_context
          = s.learned_context ++ "\n\nOwner: " ++ text ∧
       (handle_direct_message gen u s).chat_history
          = s.chat_history ++ [⟨m.chat_id, "user", text, s.clock⟩] ∧
       (handle_direct_message gen u s).message_queue = s.message_queue ∧
       handle_direct_message gen u s = handle_direct_message gen' u s)) ∧
    (u.business_message = some m → m.text = some text → m.from_id = s.owner →
      ((handle_business_message gen u s).learned_context
          = s.learned_context ++ "\n\nOwner: " ++ text ∧
       (handle_business_message gen u s).chat_history
          = s.chat_history ++ [⟨m.chat_id, "user", text, s.clock⟩] ∧
       (handle_business_message gen u s).message_queue = s.message_queue ∧
       handle_business_message gen u s = handle_business_message gen' u s)) := by
  constructor
  · intro hm ht ho
    unfold handle_direct_message
    rw [hm]
    simp only []
    rw [ht]
    simp only [if_pos ho, save_message_to_db]
    simp
  · intro hm ht ho
    unfold handle_business_message
    rw [hm]
    simp only []
    rw [ht]
    simp only [if_pos ho, save_message_to_db]
    simp

/-- Witness for C5: a concrete owner message is learned and nothing is
queued. -/
theorem c5_owner_message_learns_witness :
    (handle_direct_message (fun _ => .ok "r")
        ⟨some 3, none, some ⟨"1", "5", some "rule: refunds take 3 days", 100, "O", none⟩⟩
        ⟨"1", "ctx", 100, [], [], [], [], "", []⟩).learned_context
      = "" ++ "\n\nOwner: " ++ "rule: refunds take 3 days" ∧
    (handle_direct_message (fun _ => .ok "r")
        ⟨some 3, none, some ⟨"1", "5", some "rule: refunds take 3 days", 100, "O", none⟩⟩
        ⟨"1", "ctx", 100, [], [], [], [], "", []⟩).message_queue = [] :=
  by
  have h :=
    ((c5_owner_message_learns (fun _ => .ok "r") (fun _ => .error "x")
        ⟨some 3, none, some ⟨"1", "5", some "rule: refunds take 3 days", 100, "O", none⟩⟩
        ⟨"1", "ctx", 100, [], [], [], [], "", []⟩
        ⟨"1", "5", some "rule: refunds take 3 days", 100, "O", none⟩
        "rule: refunds take 3 days").1 rfl rfl rfl)
  exact ⟨h.1, h.2.2.1⟩

/-! ## Preservation lemmas for the router and the flush pass -/

theorem mark_update_processed_fields (s : BotState) (id : Int) :
    (mark_update_processed s id).owner = s.owner ∧
    (mark_update_processed s id).context = s.context ∧
    (mark_update_processed s id).clock = s.clock ∧
    (mark_update_processed s id).chat_history = s.chat_history ∧
    (mark_update_processed s id).chat_timestamps = s.chat_timestamps ∧
    (mark_update_processed s id).blocked_chats = s.blocked_chats ∧
    (mark_update_processed s id).learned_context = s.learned_context ∧
    (mark_update_processed s id).message_queue = s.message_queue := by
  unfold mark_update_processed
  split_ifs <;> simp

theorem mark_update_processed_not_seen (s : BotState) (id : Int)
    (h : is_update_processed s id = false) :
    (mark_update_processed s id).processed_updates = s.processed_updates ++ [id] := by
  have h' : s.processed_updates.contains id = false := h
  have h2 : ¬ id ∈ s.processed_updates := by simpa using h'
  simp [mark_update_processed, h2]

theorem flushGo_core_fields (tr : Nat → SendOutcome) :
    ∀ (snap : List Payload) (s : BotState) (sent : List String) (n : Nat),
    (flushGo tr snap s sent n).1.owner = s.owner ∧
    (flushGo tr snap s sent n).1.context = s.context ∧
    (flushGo tr snap s sent n).1.chat_history = s.chat_history ∧
    (flushGo tr snap s sent n).1.processed_updates = s.processed_updates ∧
    (flushGo tr snap s sent n).1.learned_context = s.learned_context := by
  intro snap
  induction snap with
  | nil => intro s sent n; exact ⟨rfl, rfl, rfl, rfl, rfl⟩
  | cons msg rest ih =>
    intro s sent n
    simp only [flushGo]
    split_ifs with hdup
    · exact ih _ _ _
    · cases htr : tr n with
      | success => exact ih _ _ _
      | http400 e =>
        refine ⟨?_, ?_, ?_, ?_, ?_⟩
        · exact ((ih _ _ _).1).trans (notify_owner_fields _ _).1
        · exact ((ih _ _ _).2.1).trans (notify_owner_fields _ _).2.1
        · exact ((ih _ _ _).2.2.1).trans (notify_owner_fields _ _).2.2.2.1
        · exact ((ih _ _ _).2.2.2.1).trans (notify_owner_fields _ _).2.2.2.2.1
        · exact ((ih _ _ _).2.2.2.2).trans (notify_owner_fields _ _).2.2.2.2.2.2.2
      | httpOther e =>
        refine ⟨?_, ?_, ?_, ?_, ?_⟩
        · exact ((ih _ _ _).1).trans (notify_owner_fields _ _).1
        · exact ((ih _ _ _).2.1).trans (notify_owner_fields _ _).2.1
        · exact ((ih _ _ _).2.2.1).trans (notify_owner_fields _ _).2.2.2.1
        · exact ((ih _ _ _).2.2.2.1).trans (notify_owner_fields _ _).2.2.2.2.1
        · exact ((ih _ _ _).2.2.2.2).trans (notify_owner_fields _ _).2.2.2.2.2.2.2
      | netError e =>
        refine ⟨?_, ?_, ?_, ?_, ?_⟩
        · exact ((ih _ _ _).1).trans (notify_owner_fields _ _).1
        · exact ((ih _ _ _).2.1).trans (notify_owner_fields _ _).2.1
        · exact ((ih _ _ _).2.2.1).trans (notify_owner_fields _ _).2.2.2.1
        · exact ((ih _ _ _).2.2.2.1).trans (notify_owner_fields _ _).2.2.2.2.1
        · exact ((ih _ _ _).2.2.2.2).trans (notify_owner_fields _ _).2.2.2.2.2.2.2

theorem flush_core_fields (tr : Nat → SendOutcome) (s : BotState) :
    (flush_message_queue tr s).owner = s.owner ∧
    (flush_message_queue tr s).context = s.context ∧
    (flush_message_queue tr s).chat_history = s.chat_history ∧
    (flush_message_queue tr s).processed_updates = s.processed_updates ∧
    (flush_message_queue tr s).learned_context = s.learned_context := by
  unfold flush_message_queue flushFull
  split_ifs
  · exact ⟨rfl, rfl, rfl, rfl, rfl⟩
  · exact flushGo_core_fields tr s.message_queue s [] 0

/-! ## C4 -/

/-- Counterexample for C4 as stated: a direct message from the OWNER whose
embedded date is 120 seconds old is NOT discarded — the owner branch of
`handle_direct_message` runs before the staleness check, so a history row
is written and the learned context grows. -/
theorem c4_counterexample :
    ((⟨"1", "1", some "hi", 880, "O", none⟩ : Msg).date <
      (⟨"1", "ctx", 1000, [], [], [], [], "", []⟩ : BotState).clock - 60) ∧
    (process_update (fun _ => .error "e") (fun _ => .netError "x")
        ⟨some 7, none, some ⟨"1", "1", some "hi", 880, "O", none⟩⟩
        ⟨"1", "ctx", 1000, [], [], [], [], "", []⟩).chat_history.length = 1 ∧
    (process_update (fun _ => .error "e") (fun _ => .netError "x")
        ⟨some 7, none, some ⟨"1", "1", some "hi", 880, "O", none⟩⟩
        ⟨"1", "ctx", 1000, [], [], [], [], "", []⟩).learned_context = "\n\nOwner: hi" := by
  decide

/-- C4 (amended): a direct message from a NON-owner sender whose embedded
date is more than 60 seconds older than processing time is discarded
before classification: the handler leaves the state untouched, the update
is still marked processed by the router, and afterwards no history row, no
learned-context append and no processed-set entry beyond the id exist.
(The owner is exempt: the owner branch runs before the staleness check,
see the counterexample.) -/
theorem c4_stale_direct_nonowner_discarded (gen : String → Except String String)
    (tr : Nat → SendOutcome) (u : Update) (s : BotState) (m : Msg) (id : Int)
    (text : String)
    (hid : u.update_id = some id) (h0 : ¬ id = 0)
    (hnp : is_update_processed s id = false)
    (hbm : u.business_message = none) (hm : u.message = some m)
    (ht : m.text = some text)
    (howner : ¬ m.from_id = s.owner)
    (hstale : m.date < s.clock - 60) :
    handle_direct_message gen u s = s ∧
    process_update gen tr u s = flush_message_queue tr (mark_update_processed s id) ∧
    (process_update gen tr u s).chat_history = s.chat_history ∧
    (process_update gen tr u s).learned_context = s.learned_context ∧
    (process_update gen tr u s).processed_updates = s.processed_updates ++ [id] := by
  have hstale' : ∀ s' : BotState, s'.owner = s.owner → s'.clock = s.clock →
      handle_direct_message gen u s' = s' := by
    intro s' howr hclk
    simp only [handle_direct_message, hm, ht]
    rw [if_neg (fun hc => howner (hc.trans howr))]
    rw [if_pos (by rw [hclk]; exact hstale)]
  have hmark := mark_update_processed_fields s id
  have hd1 : handle_direct_message gen u (mark_update_processed s id)
      = mark_update_processed s id :=
    hstale' _ hmark.1 hmark.2.2.1
  have hp : process_update gen tr u s = flush_message_queue tr (mark_update_processed s id) := by
    unfold process_update
    rw [hid]
    simp only []
    rw [if_neg h0]
    rw [if_neg (by simp [hnp])]
    rw [hbm]
    simp only [Option.isSome_none, Bool.false_eq_true, if_false, hm, Option.isSome_some, if_true]
    rw [hd1]
  have hflush := flush_core_fields tr (mark_update_processed s id)
  refine ⟨hstale' s rfl rfl, hp, ?_, ?_, ?_⟩
  · rw [hp]; exact hflush.2.2.1.trans hmark.2.2.2.1
  · rw [hp]; exact hflush.2.2.2.2.trans hmark.2.2.2.2.2.2.1
  · rw [hp]; exact hflush.2.2.2.1.trans (mark_update_processed_not_seen s id hnp)

/-- Witness for the amended C4: a concrete 200-second-old message from a
non-owner is dropped by the handler and only the processed-set grows. -/
theorem c4_stale_direct_nonowner_discarded_witness :
    handle_direct_message (fun _ => .error "e")
        ⟨some 7, none, some ⟨"9", "9", some "hi", 800, "N", none⟩⟩
        ⟨"1", "ctx", 1000, [], [], [], [], "", []⟩ =
      ⟨"1", "ctx", 1000, [], [], [], [], "", []⟩ ∧
    (process_update (fun _ => .error "e") (fun _ => .netError "x")
        ⟨some 7, none, some ⟨"9", "9", some "hi", 800, "N", none⟩⟩
        ⟨"1", "ctx", 1000, [], [], [], [], "", []⟩).processed_updates =
      (⟨"1", "ctx", 1000, [], [], [], [], "", []⟩ : BotState).processed_updates ++ [7] := by
  have h := c4_stale_direct_nonowner_discarded (fun _ => .error "e") (fun _ => .netError "x")
    ⟨some 7, none, some ⟨"9", "9", some "hi", 800, "N", none⟩⟩
    ⟨"1", "ctx", 1000, [], [], [], [], "", []⟩
    ⟨"9", "9", some "hi", 800, "N", none⟩ 7 "hi"
    rfl (by decide) (by decide) rfl rfl rfl (by decide) (by decide)
  exact ⟨h.1, h.2.2.2.2⟩

/-! ## Blocked-chat monotonicity (C9) -/

theorem notify_owner_blocked (s : BotState) (t : String) :
    (notify_owner s t).1.blocked_chats = s.blocked_chats :=
  (notify_owner_fields s t).2.2.2.2.2.2.1

theorem addBlocked_contains_mono (l : List String) (c x : String)
    (h : l.contains c = true) : (addBlocked l x).contains c = true := by
  unfold addBlocked
  split_ifs
  · exact h
  · have h' : c ∈ l := by simpa using h
    simp [h']

theorem flushGo_blocked_mono (tr : Nat → SendOutcome) (c : String) :
    ∀ (snap : List Payload) (s : BotState) (sent : List String) (n : Nat),
    s.blocked_chats.contains c = true →
    (flushGo tr snap s sent n).1.blocked_chats.contains c = true := by
  intro snap
  induction snap with
  | nil => intro s sent n h; exact h
  | cons msg rest ih =>
    intro s sent n h
    simp only [flushGo]
    split_ifs with hdup
    · exact ih _ _ _ h
    · cases htr : tr n with
      | success => exact ih _ _ _ h
      | http400 e =>
        refine ih _ _ _ ?_
        show (notify_owner _ _).1.blocked_chats.contains c = true
        rw [notify_owner_blocked]
        exact addBlocked_contains_mono _ c msg.chat_id h
      | httpOther e =>
        refine ih _ _ _ ?_
        show (notify_owner _ _).1.blocked_chats.contains c = true
        rw [notify_owner_blocked]
        exact h
      | netError e =>
        refine ih _ _ _ ?_
        show (notify_owner _ _).1.blocked_chats.contains c = true
        rw [notify_owner_blocked]
        exact h

theorem flush_blocked_mono (tr : Nat → SendOutcome) (s : BotState) (c : String)
    (h : s.blocked_chats.contains c = true) :
    (flush_message_queue tr s).blocked_chats.contains c = true := by
  unfold flush_message_queue flushFull
  split_ifs
  · exact h
  · exact flushGo_blocked_mono tr c s.message_queue s [] 0 h

theorem handle_business_blocked_eq (gen : String → Except String String) (u : Update)
    (s : BotState) : (handle_business_message gen u s).blocked_chats = s.blocked_chats := by
  simp only [handle_business_message]
  cases hm : u.business_message with
  | none => rfl
  | some m =>
    simp only []
    cases ht : m.text with
    | none => rfl
    | some text =>
      simp only []
      split_ifs with h1 h2
      · rfl
      · exact (send_message_fields _ _ _ _).2.2.2.2.2.2.1
      · split
        · exact (send_message_fields _ _ _ _).2.2.2.2.2.2.1
        · exact ((send_message_fields _ _ _ _).2.2.2.2.2.2.1).trans (notify_owner_blocked _ _)

theorem handle_direct_blocked_eq (gen : String → Except String String) (u : Update)
    (s : BotState) : (handle_direct_message gen u s).blocked_chats = s.blocked_chats := by
  simp only [handle_direct_message]
  cases hm : u.message with
  | none => rfl
  | some m =>
    simp only []
    cases ht : m.text with
    | none => rfl
    | some text =>
      simp only []
      split_ifs with h1 h2 h3 h4
      · rfl
      · rfl
      · exact (send_message_fields _ _ _ _).2.2.2.2.2.2.1
      · exact (send_message_fields _ _ _ _).2.2.2.2.2.2.1
      · split
        · exact (send_message_fields _ _ _ _).2.2.2.2.2.2.1
        · exact ((send_message_fields _ _ _ _).2.2.2.2.2.2.1).trans (notify_owner_blocked _ _)

theorem process_update_blocked_mono (gen : String → Except String String)
    (tr : Nat → SendOutcome) (u : Update) (s : BotState) (c : String)
    (h : s.blocked_chats.contains c = true) :
    (process_update gen tr u s).blocked_chats.contains c = true := by
  unfold process_update
  cases hu : u.update_id with
  | none => exact h
  | some id =>
    simp only []
    by_cases h0 : id = 0
    · rw [if_pos h0]; exact h
    · rw [if_neg h0]
      by_cases hp : is_update_processed s id = true
      · rw [if_pos hp]; exact h
      · rw [if_neg hp]
        apply flush_blocked_mono
        have hmark : (mark_update_processed s id).blocked_chats = s.blocked_chats :=
          (mark_update_processed_fields s id).2.2.2.2.2.1
        by_cases hb : u.business_message.isSome = true
        · rw [if_pos hb, handle_business_blocked_eq, hmark]; exact h
        · rw [if_neg hb]
          by_cases hm2 : u.message.isSome = true
          · rw [if_pos hm2, handle_direct_blocked_eq, hmark]; exact h
          · rw [if_neg hm2, hmark]; exact h

/-! ## C9 -/

/-- C9: once a chat id is in the blocked set, no pipeline operation
(`send_message`, `flush_message_queue`, either handler, or the whole
router) removes it, and every `send_message` call for that chat is
rejected with the state unchanged. -/
theorem c9_blocked_chat_permanent (gen : String → Except String String)
    (tr : Nat → SendOutcome) (u : Update) (s : BotState) (c c2 t : String)
    (bci : Option String) (h : s.blocked_chats.contains c = true) :
    send_message s c t bci = (none, s) ∧
    (send_message s c2 t bci).2.blocked_chats.contains c = true ∧
    (flush_message_queue tr s).blocked_chats.contains c = true ∧
    (handle_business_message gen u s).blocked_chats.contains c = true ∧
    (handle_direct_message gen u s).blocked_chats.contains c = true ∧
    (process_update gen tr u s).blocked_chats.contains c = true := by
  refine ⟨send_message_reject_of_blocked s c t bci h, ?_,
    flush_blocked_mono tr s c h, ?_, ?_,
    process_update_blocked_mono gen tr u s c h⟩
  · rw [(send_message_fields s c2 t bci).2.2.2.2.2.2.1]; exact h
  · rw [handle_business_blocked_eq]; exact h
  · rw [handle_direct_blocked_eq]; exact h

/-- Witness for C9: with chat "7" blocked in a concrete state, its
enqueue is rejected and the chat stays blocked across a full router run. -/
theorem c9_blocked_chat_permanent_witness :
    send_message ⟨"1", "ctx", 100, [], [], [], ["7"], "", []⟩ "7" "x" none =
      (none, ⟨"1", "ctx", 100, [], [], [], ["7"], "", []⟩) ∧
    (process_update (fun _ => .ok "r") (fun _ => .success)
        ⟨some 9, none, some ⟨"9", "7", some "hi", 100, "N", none⟩⟩
        ⟨"1", "ctx", 100, [], [], [], ["7"], "", []⟩).blocked_chats.contains "7" = true := by
  have h := c9_blocked_chat_permanent (fun _ => .ok "r") (fun _ => .success)
    ⟨some 9, none, some ⟨"9", "7", some "hi", 100, "N", none⟩⟩
    ⟨"1", "ctx", 100, [], [], [], ["7"], "", []⟩ "7" "8" "x" none (by decide)
  exact ⟨h.1, h.2.2.2.2.2⟩

/-! ## C6 -/

theorem genLoop_success (oracle : Nat → AttemptOutcome) (mr k : Nat) (t : String)
    (hk : k < mr) (hok : oracle k = .ok t) :
    ∀ d attempt, k - attempt = d → attempt ≤ k →
    (∀ i, attempt ≤ i → i < k → attemptFails (oracle i) = true) →
    genLoop oracle mr attempt =
      (.success t, (List.range' attempt (k - attempt)).map (fun i => 2 ^ i)) := by
  intro d
  induction d with
  | zero =>
    intro attempt hd hle _
    have hak : attempt = k := by omega
    subst hak
    unfold genLoop
    rw [if_pos hk, hok]
    simp [Nat.sub_self]
  | succ d ih =>
    intro attempt hd hle hfail
    have hlt : attempt < k := by omega
    unfold genLoop
    rw [if_pos (by omega : attempt < mr)]
    have hf := hfail attempt (le_refl _) hlt
    have hrec := ih (attempt + 1) (by omega) (by omega)
      (fun i h1 h2 => hfail i (by omega) h2)
    have hn : k - attempt = (k - (attempt + 1)) + 1 := by omega
    cases ho : oracle attempt with
    | ok tx =>
      rw [ho] at hf
      simp [attemptFails] at hf
    | timeout =>
      simp only []
      rw [if_pos (by omega : attempt < mr - 1)]
      simp only [hrec]
      rw [hn, List.range'_succ]
      simp
    | error e =>
      simp only []
      rw [if_pos (by omega : attempt < mr - 1)]
      simp only [hrec]
      rw [hn, List.range'_succ]
      simp

theorem genLoop_allfail (oracle : Nat → AttemptOutcome) (mr : Nat) (hmr : 0 < mr)
    (hfail : ∀ i, i < mr → attemptFails (oracle i) = true) :
    ∀ d attempt, mr - 1 - attempt = d → attempt ≤ mr - 1 →
    ((genLoop oracle mr attempt).2 =
       (List.range' attempt (mr - 1 - attempt)).map (fun i => 2 ^ i) ∧
     (oracle (mr - 1) = .timeout → (genLoop oracle mr attempt).1 = .timedOutAll) ∧
     (∀ e, oracle (mr - 1) = .error e → (genLoop oracle mr attempt).1 = .failed e)) := by
  intro d
  induction d with
  | zero =>
    intro attempt hd hle
    have ha : attempt = mr - 1 := by omega
    subst ha
    unfold genLoop
    rw [if_pos (by omega : mr - 1 < mr)]
    have hf := hfail (mr - 1) (by omega)
    cases ho : oracle (mr - 1) with
    | ok t =>
      rw [ho] at hf
      simp [attemptFails] at hf
    | timeout =>
      simp only []
      rw [if_neg (by omega : ¬ mr - 1 < mr - 1)]
      refine ⟨by simp [Nat.sub_self], fun _ => rfl, fun e he => ?_⟩
      exact absurd he (by simp)
    | error e0 =>
      simp only []
      rw [if_neg (by omega : ¬ mr - 1 < mr - 1)]
      refine ⟨by simp [Nat.sub_self], fun hto => ?_, fun e he => ?_⟩
      · exact absurd hto (by simp)
      · cases he
        rfl
  | succ d ih =>
    intro attempt hd hle
    have hlt : attempt < mr - 1 := by omega
    unfold genLoop
    rw [if_pos (by omega : attempt < mr)]
    have hf := hfail attempt (by omega)
    obtain ⟨h1, h2, h3⟩ := ih (attempt + 1) (by omega) (by omega)
    have hn : mr - 1 - attempt = (mr - 1 - (attempt + 1)) + 1 := by omega
    cases ho : oracle attempt with
    | ok t =>
      rw [ho] at hf
      simp [attemptFails] at hf
    | timeout =>
      simp only []
      rw [if_pos hlt]
      refine ⟨?_, fun hto => h2 hto, fun e he => h3 e he⟩
      show 2 ^ attempt :: (genLoop oracle mr (attempt + 1)).2 = _
      rw [h1, hn, List.range'_succ]
      simp
    | error e0 =>
      simp only []
      rw [if_pos hlt]
      refine ⟨?_, fun hto => h2 hto, fun e he => h3 e he⟩
      show 2 ^ attempt :: (genLoop oracle mr (attempt + 1)).2 = _
      rw [h1, hn, List.range'_succ]
      simp

/-- C6: the retry loop of `generate_response_with_retry` wraps each
attempt in its own timeout (the outcome oracle is indexed per attempt);
it returns the upstream text of the first successful attempt after
sleeping `2^i` seconds for each failed attempt `i` before it; and when all
`max_retries` attempts fail it sleeps after every attempt but the last and
fails with the dedicated timeout error when the final attempt timed out,
otherwise re-raising the final attempt's error. -/
theorem c6_retry_policy (oracle : Nat → AttemptOutcome) (max_retries : Nat)
    (hmr : 0 < max_retries) :
    (∀ k t, k < max_retries → oracle k = .ok t →
      (∀ i, i < k → attemptFails (oracle i) = true) →
      generate_response_with_retry oracle max_retries =
        (.success t, (List.range k).map (fun i => 2 ^ i))) ∧
    ((∀ i, i < max_retries → attemptFails (oracle i) = true) →
      ((generate_response_with_retry oracle max_retries).2 =
         (List.range (max_retries - 1)).map (fun i => 2 ^ i) ∧
       (oracle (max_retries - 1) = .timeout →
         (generate_response_with_retry oracle max_retries).1 = .timedOutAll) ∧
       (∀ e, oracle (max_retries - 1) = .error e →
         (generate_response_with_retry oracle max_retries).1 = .failed e))) := by
  constructor
  · intro k t hk hok hfail
    have h := genLoop_success oracle max_retries k t hk hok k 0 rfl (Nat.zero_le k)
      (fun i _ h2 => hfail i h2)
    rw [Nat.sub_zero] at h
    unfold generate_response_with_retry
    rw [h, List.range_eq_range']
  · intro hfail
    have h := genLoop_allfail oracle max_retries hmr hfail (max_retries - 1) 0 rfl
      (Nat.zero_le _)
    rw [Nat.sub_zero] at h
    unfold generate_response_with_retry
    rw [List.range_eq_range']
    exact h

/-- Witness for C6: with attempt 0 timing out and attempt 1 succeeding,
the call returns the attempt-1 text after a single 1-second backoff. -/
theorem c6_retry_policy_witness :
    0 < 3 ∧
    generate_response_with_retry (fun i => if i = 0 then .timeout else .ok "hi") 3 =
      (.success "hi", (List.range 1).map (fun i => 2 ^ i)) :=
  ⟨by decide,
   (c6_retry_policy (fun i => if i = 0 then .timeout else .ok "hi") 3 (by decide)).1 1 "hi"
     (by decide) (by decide)
     (fun i hi => by
        have h0 : i = 0 := by omega
        subst h0
        decide)⟩

/-! ## C8 -/

theorem sortedRowsDesc_sorted (s : BotState) (cid : String) :
    (sortedRowsDesc s cid).Sorted tsDescLE :=
  List.sorted_insertionSort tsDescLE (chatRows s cid)

theorem sortedRowsDesc_perm (s : BotState) (cid : String) :
    (sortedRowsDesc s cid).Perm (chatRows s cid) :=
  List.perm_insertionSort tsDescLE (chatRows s cid)

/-- C8: `load_chat_history` returns at most `limit` entries; the selected
rows, after the reversal, are in chronological (non-decreasing timestamp)
order; every selected row belongs to the requested chat; the DESC-sorted
list is a permutation of the chat's rows; and the selection is the most
recent window — every row left out of the window is no newer than every
selected row. -/
theorem c8_recent_window (s : BotState) (cid : String) (limit : Nat) :
    (load_chat_history s cid limit).length ≤ limit ∧
    ((selectRecentRows s cid limit).reverse).Pairwise
      (fun a b => a.timestamp ≤ b.timestamp) ∧
    (∀ x ∈ selectRecentRows s cid limit, x.chat_id = cid) ∧
    (sortedRowsDesc s cid).Perm (chatRows s cid) ∧
    (∀ x ∈ selectRecentRows s cid limit, ∀ y ∈ (sortedRowsDesc s cid).drop limit,
      y.timestamp ≤ x.timestamp) := by
  refine ⟨?_, ?_, ?_, sortedRowsDesc_perm s cid, ?_⟩
  · simp only [load_chat_history, selectRecentRows, List.length_map, List.length_reverse,
      List.length_take]
    exact Nat.min_le_left _ _
  · rw [List.pairwise_reverse]
    exact (sortedRowsDesc_sorted s cid).sublist (List.take_sublist _ _)
  · intro x hx
    have hmem : x ∈ sortedRowsDesc s cid := List.mem_of_mem_take hx
    have hcr : x ∈ chatRows s cid := (sortedRowsDesc_perm s cid).subset hmem
    have hb := List.of_mem_filter hcr
    simpa using hb
  · intro x hx y hy
    have hs := sortedRowsDesc_sorted s cid
    rw [← List.take_append_drop limit (sortedRowsDesc s cid)] at hs
    exact (List.pairwise_append.mp hs).2.2 x hx y hy

/-- Witness for C8: with rows at timestamps 5 and 9 and `limit = 1`, the
window keeps the timestamp-9 row and the dropped timestamp-5 row is no
newer. -/
theorem c8_recent_window_witness :
    (⟨"c", "bot", "b", 9⟩ : HistoryRow) ∈
      selectRecentRows
        ⟨"1", "ctx", 100, [⟨"c", "user", "a", 5⟩, ⟨"c", "bot", "b", 9⟩], [], [], [], "", []⟩
        "c" 1 ∧
    (⟨"c", "user", "a", 5⟩ : HistoryRow) ∈
      (sortedRowsDesc
        ⟨"1", "ctx", 100, [⟨"c", "user", "a", 5⟩, ⟨"c", "bot", "b", 9⟩], [], [], [], "", []⟩
        "c").drop 1 ∧
    (⟨"c", "user", "a", 5⟩ : HistoryRow).timestamp ≤
      (⟨"c", "bot", "b", 9⟩ : HistoryRow).timestamp := by
  refine ⟨by decide, by decide, ?_⟩
  exact (c8_recent_window
      ⟨"1", "ctx", 100, [⟨"c", "user", "a", 5⟩, ⟨"c", "bot", "b", 9⟩], [], [], [], "", []⟩
      "c" 1).2.2.2.2
    ⟨"c", "bot", "b", 9⟩ (by decide) ⟨"c", "user", "a", 5⟩ (by decide)

/-! ## C7 -/

theorem flushGo_queue (tr : Nat → SendOutcome) :
    ∀ (snap extra : List Payload) (s : BotState) (sent : List String) (n : Nat),
    s.message_queue = snap ++ extra →
    (flushGo tr snap s sent n).1.message_queue = extra ++ (flushGo tr snap s sent n).2.2 := by
  intro snap
  induction snap with
  | nil =>
    intro extra s sent n hq
    simp only [flushGo]
    rw [hq]
    simp
  | cons msg rest ih =>
    intro extra s sent n hq
    have hq' : s.message_queue = msg :: (rest ++ extra) := by rw [hq]; rfl
    simp only [flushGo]
    split_ifs with hdup
    · refine ih extra _ sent n ?_
      simp only [hq', removeFirst_cons_self]
    · cases htr : tr n with
      | success =>
        refine ih extra _ _ _ ?_
        simp only [hq', removeFirst_cons_self, update_last_message_time]
      | http400 e =>
        refine (ih (extra ++ (notify_owner _ _).2) _ _ _ ?_).trans
          (List.append_assoc _ _ _)
        simp only [notify_owner_queue, hq', List.cons_append, removeFirst_cons_self,
          List.append_assoc]
      | httpOther e =>
        refine (ih (extra ++ (notify_owner _ _).2) _ _ _ ?_).trans
          (List.append_assoc _ _ _)
        simp only [notify_owner_queue, hq', List.cons_append, removeFirst_cons_self,
          List.append_assoc]
      | netError e =>
        refine (ih (extra ++ (notify_owner _ _).2) _ _ _ ?_).trans
          (List.append_assoc _ _ _)
        simp only [notify_owner_queue, hq', List.cons_append, removeFirst_cons_self,
          List.append_assoc]

theorem flushGo_sent_fresh (tr : Nat → SendOutcome) :
    ∀ (snap : List Payload) (s : BotState) (sent : List String) (n : Nat),
    ((flushGo tr snap s sent n).2.1.map (fun p => p.1 ++ ":" ++ p.2)).Nodup ∧
    (∀ p ∈ (flushGo tr snap s sent n).2.1,
      sent.contains (p.1 ++ ":" ++ p.2) = false) := by
  intro snap
  induction snap with
  | nil =>
    intro s sent n
    exact ⟨List.nodup_nil, by intro p hp; cases hp⟩
  | cons msg rest ih =>
    intro s sent n
    simp only [flushGo]
    split_ifs with hdup
    · exact ih _ _ _
    · cases htr : tr n with
      | success =>
        constructor
        · refine List.nodup_cons.mpr ⟨?_, (ih _ _ _).1⟩
          intro hmem
          obtain ⟨p, hp, hkey⟩ := List.mem_map.mp hmem
          have hfr := (ih _ _ _).2 p hp
          rw [hkey] at hfr
          simp at hfr
        · intro p hp
          rcases List.mem_cons.mp hp with hph | hpt
          · subst hph
            simpa using hdup
          · have hfr := (ih _ _ _).2 p hpt
            have h1 : ¬ (p.1 ++ ":" ++ p.2) ∈
                sent ++ [msg.chat_id ++ ":" ++ msg.text] := by simpa using hfr
            have h2 : ¬ (p.1 ++ ":" ++ p.2) ∈ sent :=
              fun hm => h1 (List.mem_append_left _ hm)
            simpa using h2
      | http400 e => exact ih _ _ _
      | httpOther e => exact ih _ _ _
      | netError e => exact ih _ _ _

theorem notify_owner_appended (s : BotState) (t : String) :
    ∀ p ∈ (notify_owner s t).2, p.chat_id = s.owner ∧ p.business_connection_id = none := by
  intro p hp
  simp only [notify_owner] at hp
  split at hp
  · simp at hp
    subst hp
    exact ⟨rfl, rfl⟩
  · cases hp

theorem flushGo_appended_owner (tr : Nat → SendOutcome) :
    ∀ (snap : List Payload) (s : BotState) (sent : List String) (n : Nat),
    ∀ p ∈ (flushGo tr snap s sent n).2.2,
      p.chat_id = s.owner ∧ p.business_connection_id = none := by
  intro snap
  induction snap with
  | nil => intro s sent n p hp; cases hp
  | cons msg rest ih =>
    intro s sent n
    simp only [flushGo]
    split_ifs with hdup
    · exact ih _ _ _
    · cases htr : tr n with
      | success => exact ih _ _ _
      | http400 e =>
        intro p hp
        rcases List.mem_append.mp hp with h1 | h2
        · have h := notify_owner_appended _ _ p h1
          exact ⟨h.1, h.2⟩
        · have h := ih _ _ _ p h2
          exact ⟨h.1.trans (notify_owner_fields _ _).1, h.2⟩
      | httpOther e =>
        intro p hp
        rcases List.mem_append.mp hp with h1 | h2
        · have h := notify_owner_appended _ _ p h1
          exact ⟨h.1, h.2⟩
        · have h := ih _ _ _ p h2
          exact ⟨h.1.trans (notify_owner_fields _ _).1, h.2⟩
      | netError e =>
        intro p hp
        rcases List.mem_append.mp hp with h1 | h2
        · have h := notify_owner_appended _ _ p h1
          exact ⟨h.1, h.2⟩
        · have h := ih _ _ _ p h2
          exact ⟨h.1.trans (notify_owner_fields _ _).1, h.2⟩

/-- C7: within one flush pass each distinct `(chat_id, text)` pair is
successfully sent at most once (the sent trace has no duplicates); and by
the time the pass returns, every entry that was in the queue when it
started has been removed — the final queue consists exactly of the
owner-notification payloads the error paths appended during the pass. -/
theorem c7_flush_pass (tr : Nat → SendOutcome) (s : BotState) :
    (flushFull tr s).2.1.Nodup ∧
    (flushFull tr s).1.message_queue = (flushFull tr s).2.2 ∧
    (∀ p ∈ (flushFull tr s).2.2,
      p.chat_id = s.owner ∧ p.business_connection_id = none) := by
  refine ⟨?_, ?_, fun p hp => flushGo_appended_owner tr s.message_queue s [] 0 p hp⟩
  · exact ((flushGo_sent_fresh tr s.message_queue s [] 0).1).of_map _
  · exact flushGo_queue tr s.message_queue [] s [] 0 (by simp)

/-- Witness for C7: a one-entry queue whose send fails transiently ends
the pass holding exactly the owner-notification payload. -/
theorem c7_flush_pass_witness :
    (⟨"9", "Failed to send message to chat c: x", none⟩ : Payload) ∈
      (flushFull (fun _ => .netError "x")
        ⟨"9", "ctx", 100, [], [], [], [], "", [⟨"c", "t", none⟩]⟩).2.2 ∧
    ((⟨"9", "Failed to send message to chat c: x", none⟩ : Payload).chat_id = "9" ∧
     (⟨"9", "Failed to send message to chat c: x", none⟩ : Payload).business_connection_id
       = none) :=
  ⟨by decide,
   (c7_flush_pass (fun _ => .netError "x")
      ⟨"9", "ctx", 100, [], [], [], [], "", [⟨"c", "t", none⟩]⟩).2.2
     ⟨"9", "Failed to send message to chat c: x", none⟩ (by decide)⟩
